import Mathlib

/-!
A shallow embedding of the velocity-profile trajectory executor of the
kos-kbot operator scripts: `move_to_target` and `move_hands` from
`src/demos/boxing.py` (the same code is duplicated in `src/demos/wave.py`),
the actuator configuration loops of `boxing_stance` (boxing.py) and of
`src/demos/disable.py` / `src/scripts/sin_test.py`, and the
cancellation-cleanup paths of boxing.py and sin_test.py.

Python floats are modelled as real numbers; the remote actuator channel is
modelled by its observable behaviour: the state-query response is an input
(queried position and velocity) and the dispatched commands are collected
into a list.
-/

namespace KBot

/-! ## ProfileSolver: the closed-form velocity profile

`move_to_target`, boxing.py lines 61-92.  The function first overwrites its
`current_angle` argument with the freshly queried position, so `current`
below is always the queried position. -/

/-- `displacement = target - current_angle` (boxing.py line 61). -/
def displacement (current target : ℝ) : ℝ := target - current

/-- `distance = abs(displacement)` (boxing.py line 62). -/
def distance (current target : ℝ) : ℝ := |displacement current target|

/-- `direction = 1 if displacement > 0 else -1` (boxing.py line 63);
zero displacement yields `-1`. -/
noncomputable def direction (current target : ℝ) : ℝ :=
  if 0 < displacement current target then 1 else -1

/-- `t_accel = V_MAX / acceleration` (boxing.py line 66). -/
noncomputable def t_accel (acceleration V_MAX : ℝ) : ℝ := V_MAX / acceleration

/-- `d_accel = 0.5 * acceleration * t_accel**2` (boxing.py line 67). -/
noncomputable def d_accel (acceleration V_MAX : ℝ) : ℝ :=
  0.5 * acceleration * t_accel acceleration V_MAX ^ 2

/-- Trapezoidal branch only: `t_flat = d_flat / V_MAX` with
`d_flat = distance - 2 * d_accel` (boxing.py lines 71-72). -/
noncomputable def t_flat (current target acceleration V_MAX : ℝ) : ℝ :=
  (distance current target - 2 * d_accel acceleration V_MAX) / V_MAX

/-- Triangular branch only: `t_peak = (distance / acceleration) ** 0.5`
(boxing.py line 84). -/
noncomputable def t_peak (current target acceleration : ℝ) : ℝ :=
  Real.sqrt (distance current target / acceleration)

/-- Triangular branch only: `peak_velocity = acceleration * t_peak`
(boxing.py line 86). -/
noncomputable def peak_velocity (current target acceleration : ℝ) : ℝ :=
  acceleration * t_peak current target acceleration

/-- The two profile shapes the solver can choose. -/
inductive ProfileKind where
  | trapezoidal
  | triangular
deriving DecidableEq

/-- The branch taken at boxing.py line 69: trapezoidal when
`distance >= 2 * d_accel`, triangular otherwise. -/
noncomputable def profileKind (current target acceleration V_MAX : ℝ) : ProfileKind :=
  if 2 * d_accel acceleration V_MAX ≤ distance current target then .trapezoidal
  else .triangular

/-- `total_time` of the chosen profile: `2 * t_accel + t_flat` in the
trapezoidal branch (line 73), `2 * t_peak` in the triangular branch
(line 85). -/
noncomputable def total_time (current target acceleration V_MAX : ℝ) : ℝ :=
  if 2 * d_accel acceleration V_MAX ≤ distance current target then
    2 * t_accel acceleration V_MAX + t_flat current target acceleration V_MAX
  else
    2 * t_peak current target acceleration

/-- `get_target_velocity(t)` (boxing.py lines 75-92): the piecewise velocity
law of the chosen profile, with the closure-captured `direction`,
`current_velocity`, `t_accel`, `t_flat`, `t_peak` and `peak_velocity`
spelled out as parameters. -/
noncomputable def get_target_velocity
    (current current_velocity target acceleration V_MAX t : ℝ) : ℝ :=
  if 2 * d_accel acceleration V_MAX ≤ distance current target then
    if t < t_accel acceleration V_MAX then
      direction current target * min V_MAX (current_velocity + acceleration * t)
    else if t < t_accel acceleration V_MAX + t_flat current target acceleration V_MAX then
      direction current target * V_MAX
    else
      direction current target *
        max 0 (V_MAX - acceleration *
          (t - t_accel acceleration V_MAX - t_flat current target acceleration V_MAX))
  else
    if t < t_peak current target acceleration then
      direction current target *
        min (peak_velocity current target acceleration) (current_velocity + acceleration * t)
    else
      direction current target *
        max 0 (peak_velocity current target acceleration -
          acceleration * (t - t_peak current target acceleration))

/-! ## TickScheduler: the command loop of `move_to_target`

boxing.py lines 94-124.  `steps = int(total_time / dt)` truncates toward
zero; since the loop `for _ in range(steps)` runs `max steps 0` times, the
iteration count is `(⌊total_time / dt⌋).toNat` (for a nonnegative quotient
truncation and floor agree, and a negative quotient runs the loop zero times
either way). -/

/-- `steps = int(total_time / dt)` (boxing.py line 94), as a loop count. -/
noncomputable def steps (current target acceleration V_MAX dt : ℝ) : ℕ :=
  (⌊total_time current target acceleration V_MAX / dt⌋).toNat

/-- The value of the mutable `current_angle` after `k` loop iterations: each
iteration performs `current_angle += get_target_velocity(t) * dt` with
`t = i * dt` at iteration `i` (boxing.py lines 99-100, 110): explicit Euler
integration of the velocity law. -/
noncomputable def eulerPosition
    (current current_velocity target acceleration V_MAX dt : ℝ) : ℕ → ℝ
  | 0 => current
  | k + 1 => eulerPosition current current_velocity target acceleration V_MAX dt k +
      get_target_velocity current current_velocity target acceleration V_MAX (k * dt) * dt

/-- One dispatched setpoint: `{'actuator_id': ..., 'position': ...,
'velocity': ...}` (boxing.py lines 103-107). -/
structure ActuatorCommand where
  actuator_id : ℤ
  position : ℝ
  velocity : ℝ

/-- The commands dispatched by the tick loop (boxing.py lines 98-114): the
`i`-th iteration sends the Euler-integrated position after `i + 1` updates
together with `abs(target_velocity)` evaluated at `t = i * dt`. -/
noncomputable def tick_commands
    (current current_velocity target acceleration V_MAX dt : ℝ)
    (actuator_id : ℤ) : List ActuatorCommand :=
  (List.range (steps current target acceleration V_MAX dt)).map fun i =>
    { actuator_id := actuator_id
      position := eulerPosition current current_velocity target acceleration V_MAX dt (i + 1)
      velocity :=
        |get_target_velocity current current_velocity target acceleration V_MAX (i * dt)| }

/-- What one call of `move_to_target` observably does: the sequence of
commands dispatched through the channel and the returned value. -/
structure MoveResult where
  commands : List ActuatorCommand
  ret : ℝ

/-- `move_to_target` (boxing.py lines 52-124).  `queried_position` and
`queried_velocity` are the response of `get_actuators_state`; line 58
overwrites the `current_angle` argument with `queried_position` before any
use.  After the tick loop, one final command with `position = target` and
`velocity = 0` is sent unconditionally (lines 117-123) and `target` is
returned (line 124). -/
noncomputable def move_to_target
    (queried_position queried_velocity current_angle target
      acceleration V_MAX dt : ℝ) (actuator_id : ℤ) : MoveResult :=
  { commands :=
      tick_commands queried_position queried_velocity target acceleration V_MAX dt
        actuator_id ++
      [{ actuator_id := actuator_id, position := target, velocity := 0 }]
    ret := target }

/-- `move_hands` (boxing.py lines 18-50): raises `ValueError` unless
`position` is 0 or 1, otherwise dispatches one batched command per hand
actuator at target `100.0` (for 1) or `0.0` (for 0) with velocity `0.0`. -/
noncomputable def move_hands_commands
    (hand_ids : List ℤ) (position : ℤ) : Except String (List ActuatorCommand) :=
  if position = 0 ∨ position = 1 then
    .ok (hand_ids.map fun id =>
      { actuator_id := id
        position := if position = 1 then (100 : ℝ) else 0
        velocity := 0 })
  else
    .error "Position must be 0 or 1"

/-! ## Configuration loops and cancellation cleanup

The configuration behaviour is modelled by which actuator ids end up
configured, given an oracle `fails` saying which `configure_actuator` calls
raise. -/

/-- The configuration loop of `boxing_stance` (boxing.py lines 137-144):
`configure_actuator` is called for each id in order with no `try/except`, so
the first failure propagates and aborts the loop.  Returns the ids that were
configured and whether an exception escaped. -/
def configure_loop_boxing (fails : ℤ → Bool) : List ℤ → List ℤ × Bool
  | [] => ([], false)
  | id :: rest =>
    if fails id then ([], true)
    else
      let r := configure_loop_boxing fails rest
      (id :: r.1, r.2)

/-- The configuration loop of `src/demos/disable.py` lines 6-10 (the same
`try/except`-per-actuator shape appears in sin_test.py lines 47-54, 60-87 and
147-154): a failing id is logged and skipped, every other id is still
configured. -/
def configure_loop_disable (fails : ℤ → Bool) : List ℤ → List ℤ
  | [] => []
  | id :: rest =>
    if fails id then configure_loop_disable fails rest
    else id :: configure_loop_disable fails rest

/-- `right_arm_ids` (boxing.py line 134). -/
def right_arm_ids : List ℤ := [21, 22, 23, 24, 25]

/-- `left_arm_ids` (boxing.py line 135). -/
def left_arm_ids : List ℤ := [11, 12, 13, 14, 15]

/-- The actuators `boxing_stance` configures with torque enabled
(boxing.py lines 137-144). -/
def boxing_configured_ids : List ℤ := right_arm_ids ++ left_arm_ids

/-- boxing.py lines 191-209: neither `test_client` nor `main` wraps
`boxing_stance` in any exception or cancellation handler, and `boxing_stance`
itself has none, so an external interrupt propagates out of `asyncio.run`
with no further channel call: the set of actuators whose torque is disabled
on cancellation is empty. -/
def boxing_cancellation_disables : List ℤ := []

/-- `LEG_MOTORS.values()` of sin_test.py lines 15-28. -/
def leg_motor_ids : List ℤ := [31, 32, 33, 34, 35, 41, 42, 43, 44, 45]

/-- sin_test.py lines 169-180: `main` catches `KeyboardInterrupt` and
`asyncio.CancelledError` and, in the handler, disables torque on every motor
of `LEG_MOTORS`. -/
def sin_test_cancellation_disables : List ℤ := leg_motor_ids

/-! ## Basic facts about the solver -/

theorem direction_eq_one_or_neg_one (current target : ℝ) :
    direction current target = 1 ∨ direction current target = -1 := by
  unfold direction
  split_ifs <;> simp

theorem abs_direction (current target : ℝ) : |direction current target| = 1 := by
  rcases direction_eq_one_or_neg_one current target with h | h <;> rw [h] <;> norm_num

theorem abs_direction_mul (current target x : ℝ) :
    |direction current target * x| = |x| := by
  rw [abs_mul, abs_direction, one_mul]

theorem distance_nonneg (current target : ℝ) : 0 ≤ distance current target :=
  abs_nonneg _

/-- With `acceleration ≠ 0`, the branch threshold `2 * d_accel` of boxing.py
line 69 is exactly `V_MAX ^ 2 / acceleration`. -/
theorem two_d_accel (acceleration V_MAX : ℝ) (ha : acceleration ≠ 0) :
    2 * d_accel acceleration V_MAX = V_MAX ^ 2 / acceleration := by
  unfold d_accel t_accel
  field_simp
  ring

theorem t_peak_nonneg (current target acceleration : ℝ) :
    0 ≤ t_peak current target acceleration :=
  Real.sqrt_nonneg _

theorem peak_velocity_nonneg (current target acceleration : ℝ) (ha : 0 ≤ acceleration) :
    0 ≤ peak_velocity current target acceleration :=
  mul_nonneg ha (Real.sqrt_nonneg _)

/-- In the triangular branch the peak velocity stays below the cap. -/
theorem peak_velocity_le (current target acceleration V_MAX : ℝ)
    (ha : 0 < acceleration) (hv : 0 < V_MAX)
    (h : distance current target < V_MAX ^ 2 / acceleration) :
    peak_velocity current target acceleration ≤ V_MAX := by
  have hd : 0 ≤ distance current target := distance_nonneg current target
  have h1 : distance current target / acceleration ≤ (V_MAX / acceleration) ^ 2 := by
    rw [div_pow, div_le_div_iff ha (by positivity)]
    have h2 : distance current target * acceleration ≤ V_MAX ^ 2 := by
      have := (lt_div_iff ha).mp h
      linarith
    nlinarith
  have h3 : t_peak current target acceleration ≤ V_MAX / acceleration := by
    have := Real.sqrt_le_sqrt h1
    rwa [Real.sqrt_sq (by positivity)] at this
  have h4 : acceleration * t_peak current target acceleration ≤
      acceleration * (V_MAX / acceleration) :=
    mul_le_mul_of_nonneg_left h3 ha.le
  calc peak_velocity current target acceleration
      = acceleration * t_peak current target acceleration := rfl
    _ ≤ acceleration * (V_MAX / acceleration) := h4
    _ = V_MAX := by field_simp

theorem total_time_nonneg (current target acceleration V_MAX : ℝ)
    (ha : 0 < acceleration) (hv : 0 < V_MAX) :
    0 ≤ total_time current target acceleration V_MAX := by
  unfold total_time
  split_ifs with h
  · have h1 : 0 ≤ t_flat current target acceleration V_MAX :=
      div_nonneg (by linarith) hv.le
    have h2 : 0 ≤ t_accel acceleration V_MAX := div_nonneg hv.le ha.le
    linarith
  · have := t_peak_nonneg current target acceleration
    linarith

/-- The velocity law never exceeds the cap in magnitude, for any `t ≥ 0`,
provided the measured current velocity is at least `-V_MAX` (the acceleration
phase takes `min V_MAX (current_velocity + acceleration * t)`, which has no
floor, so a current velocity below `-V_MAX` passes through unclamped). -/
theorem abs_velocity_le (current current_velocity target acceleration V_MAX t : ℝ)
    (ha : 0 < acceleration) (hv : 0 < V_MAX) (hcv : -V_MAX ≤ current_velocity)
    (ht : 0 ≤ t) :
    |get_target_velocity current current_velocity target acceleration V_MAX t| ≤ V_MAX := by
  have hat : 0 ≤ acceleration * t := mul_nonneg ha.le ht
  unfold get_target_velocity
  split_ifs with h1 h2 h3 h4
  · -- trapezoidal, acceleration phase
    rw [abs_direction_mul]
    rw [abs_le]
    constructor
    · exact le_min (by linarith) (by linarith)
    · exact le_trans (min_le_left _ _) le_rfl
  · -- trapezoidal, cruise phase
    rw [abs_direction_mul, abs_of_pos hv]
  · -- trapezoidal, deceleration phase
    rw [abs_direction_mul]
    rw [abs_le]
    have h5 : t_accel acceleration V_MAX + t_flat current target acceleration V_MAX ≤ t := by
      push_neg at h3
      exact h3
    have h6 : 0 ≤ acceleration *
        (t - t_accel acceleration V_MAX - t_flat current target acceleration V_MAX) :=
      mul_nonneg ha.le (by linarith)
    constructor
    · exact le_trans (by linarith) (le_max_left _ _)
    · exact max_le hv.le (by linarith)
  · -- triangular, acceleration phase
    have hpk : peak_velocity current target acceleration ≤ V_MAX := by
      push_neg at h1
      rw [two_d_accel acceleration V_MAX ha.ne.symm] at h1
      exact peak_velocity_le current target acceleration V_MAX ha hv h1
    have hpk0 : 0 ≤ peak_velocity current target acceleration :=
      peak_velocity_nonneg current target acceleration ha.le
    rw [abs_direction_mul]
    rw [abs_le]
    constructor
    · exact le_min (by linarith) (by linarith)
    · exact le_trans (min_le_left _ _) hpk
  · -- triangular, deceleration phase
    have hpk : peak_velocity current target acceleration ≤ V_MAX := by
      push_neg at h1
      rw [two_d_accel acceleration V_MAX ha.ne.symm] at h1
      exact peak_velocity_le current target acceleration V_MAX ha hv h1
    have h5 : t_peak current target acceleration ≤ t := by
      push_neg at h4
      exact h4
    have h6 : 0 ≤ acceleration * (t - t_peak current target acceleration) :=
      mul_nonneg ha.le (by linarith)
    rw [abs_direction_mul]
    rw [abs_le]
    constructor
    · exact le_trans (by linarith) (le_max_left _ _)
    · exact max_le hv.le (by linarith)

/-- The peak velocity of the chosen profile (the spec's
`MotionProfile.peakVelocity`): the cruise speed `V_MAX` in the trapezoidal
branch, `acceleration * t_peak` in the triangular branch. -/
noncomputable def profile_peak (current target acceleration V_MAX : ℝ) : ℝ :=
  if 2 * d_accel acceleration V_MAX ≤ distance current target then V_MAX
  else peak_velocity current target acceleration

theorem profile_peak_nonneg (current target acceleration V_MAX : ℝ)
    (ha : 0 ≤ acceleration) (hv : 0 ≤ V_MAX) :
    0 ≤ profile_peak current target acceleration V_MAX := by
  unfold profile_peak
  split_ifs
  · exact hv
  · exact peak_velocity_nonneg current target acceleration ha

theorem direction_of_lt (current target : ℝ) (h : current < target) :
    direction current target = 1 := by
  unfold direction displacement
  rw [if_pos (by linarith)]

theorem direction_of_ge (current target : ℝ) (h : target ≤ current) :
    direction current target = -1 := by
  unfold direction displacement
  rw [if_neg (not_lt.mpr (by linarith))]

/-- Evaluation of the velocity law in the trapezoidal acceleration phase. -/
theorem velocity_trap_accel_phase
    (current current_velocity target acceleration V_MAX t : ℝ)
    (h : 2 * d_accel acceleration V_MAX ≤ distance current target)
    (ht : t < t_accel acceleration V_MAX) :
    get_target_velocity current current_velocity target acceleration V_MAX t =
      direction current target * min V_MAX (current_velocity + acceleration * t) := by
  unfold get_target_velocity
  rw [if_pos h, if_pos ht]

/-- At `t = 0` the velocity law returns
`direction * min peakVelocity currentVelocity`. -/
theorem velocity_at_zero (current current_velocity target acceleration V_MAX : ℝ)
    (ha : 0 < acceleration) (hv : 0 < V_MAX) (hne : current ≠ target) :
    get_target_velocity current current_velocity target acceleration V_MAX 0 =
      direction current target *
        min (profile_peak current target acceleration V_MAX) current_velocity := by
  have hdpos : 0 < distance current target := by
    unfold distance displacement
    rw [abs_pos]
    intro h0
    exact hne (by linarith)
  unfold get_target_velocity profile_peak
  split_ifs with h h2 h3 h4
  · norm_num
  · exact absurd (div_pos hv ha) h2
  · exact absurd (div_pos hv ha) h2
  · norm_num
  · have : 0 < t_peak current target acceleration :=
      Real.sqrt_pos.mpr (div_pos hdpos ha)
    exact absurd this h4

/-! ## Claim theorems -/

/-- C1: for any call of the profile solver with `acceleration > 0` and
`V_MAX > 0` and travel distance `|target - current|`, the chosen profile kind
is trapezoidal iff `distance ≥ V_MAX ^ 2 / acceleration`; in the trapezoidal
case `total_time = 2 * (V_MAX / acceleration) +
(distance - V_MAX ^ 2 / acceleration) / V_MAX`, and in the triangular case
`total_time = 2 * sqrt (distance / acceleration)`. -/
theorem claim_C1 (current target acceleration V_MAX : ℝ)
    (ha : 0 < acceleration) (hv : 0 < V_MAX) :
    (profileKind current target acceleration V_MAX = .trapezoidal ↔
      V_MAX ^ 2 / acceleration ≤ distance current target) ∧
    (V_MAX ^ 2 / acceleration ≤ distance current target →
      total_time current target acceleration V_MAX =
        2 * (V_MAX / acceleration) +
          (distance current target - V_MAX ^ 2 / acceleration) / V_MAX) ∧
    (distance current target < V_MAX ^ 2 / acceleration →
      total_time current target acceleration V_MAX =
        2 * Real.sqrt (distance current target / acceleration)) := by
  have key := two_d_accel acceleration V_MAX ha.ne.symm
  refine ⟨?_, ?_, ?_⟩
  · unfold profileKind
    split_ifs with h
    · rw [key] at h
      exact iff_of_true rfl h
    · rw [key] at h
      push_neg at h
      exact iff_of_false (by simp) (not_le.mpr h)
  · intro h
    unfold total_time
    rw [if_pos (by rw [key]; exact h)]
    unfold t_flat t_accel
    rw [key]
  · intro h
    unfold total_time
    rw [if_neg (by rw [key]; exact not_le.mpr h)]
    unfold t_peak
    rfl

/-- Witness for C1 at the spec's own scenario `current = 0, target = -40,
acceleration = 100, V_MAX = 60` (trapezoidal, since `40 ≥ 36`). -/
theorem claim_C1_witness :
    (profileKind 0 (-40) 100 60 = .trapezoidal ↔
      (60 : ℝ) ^ 2 / 100 ≤ distance 0 (-40)) ∧
    ((60 : ℝ) ^ 2 / 100 ≤ distance 0 (-40) →
      total_time 0 (-40) 100 60 =
        2 * ((60 : ℝ) / 100) + (distance 0 (-40) - 60 ^ 2 / 100) / 60) ∧
    (distance 0 (-40) < (60 : ℝ) ^ 2 / 100 →
      total_time 0 (-40) 100 60 = 2 * Real.sqrt (distance 0 (-40) / 100)) :=
  claim_C1 0 (-40) 100 60 (by norm_num) (by norm_num)

/-- C2: for every trajectory execution, regardless of the number of ticks and
of accumulated Euler-integration error, the last command dispatched has
position exactly `target` and velocity exactly `0`, and it is issued
unconditionally after the tick loop. -/
theorem claim_C2
    (queried_position queried_velocity current_angle target acceleration V_MAX dt : ℝ)
    (actuator_id : ℤ) :
    (move_to_target queried_position queried_velocity current_angle target acceleration
        V_MAX dt actuator_id).commands.getLast? =
      some { actuator_id := actuator_id, position := target, velocity := 0 } := by
  unfold move_to_target
  simp

/-- C5: a zero-displacement request (target equal to the queried position)
yields `total_time = 0`, zero tick iterations, and exactly one dispatched
command, at the unchanged current position with velocity `0`. -/
theorem claim_C5
    (queried_position queried_velocity current_angle acceleration V_MAX dt : ℝ)
    (actuator_id : ℤ) (ha : 0 < acceleration) (hv : 0 < V_MAX) (hdt : 0 < dt) :
    total_time queried_position queried_position acceleration V_MAX = 0 ∧
    steps queried_position queried_position acceleration V_MAX dt = 0 ∧
    (move_to_target queried_position queried_velocity current_angle queried_position
        acceleration V_MAX dt actuator_id).commands =
      [{ actuator_id := actuator_id, position := queried_position, velocity := 0 }] := by
  have hdist : distance queried_position queried_position = 0 := by
    unfold distance displacement
    simp
  have hcond : ¬ (2 * d_accel acceleration V_MAX ≤
      distance queried_position queried_position) := by
    rw [hdist, two_d_accel acceleration V_MAX ha.ne.symm]
    exact not_le.mpr (by positivity)
  have htt : total_time queried_position queried_position acceleration V_MAX = 0 := by
    unfold total_time
    rw [if_neg hcond]
    unfold t_peak
    rw [hdist]
    simp
  have hsteps : steps queried_position queried_position acceleration V_MAX dt = 0 := by
    unfold steps
    rw [htt]
    simp
  refine ⟨htt, hsteps, ?_⟩
  unfold move_to_target tick_commands
  rw [hsteps]
  simp

/-- Witness for C5 at queried position 5, queried velocity 2, stale
`current_angle` argument 7, `acceleration = 100`, `V_MAX = 60`,
`dt = 1/50`. -/
theorem claim_C5_witness :
    total_time 5 5 100 60 = 0 ∧
    steps 5 5 100 60 (1 / 50) = 0 ∧
    (move_to_target 5 2 7 5 100 60 (1 / 50) 21).commands =
      [{ actuator_id := 21, position := 5, velocity := 0 }] :=
  claim_C5 5 2 7 100 60 (1 / 50) 21 (by norm_num) (by norm_num) (by norm_num)

/-- C3 (amended): `|v(t)| ≤ V_MAX` for all `t` in `[0, total_time]`, provided
the measured current velocity is at least `-V_MAX` (for instance whenever
`|current_velocity| ≤ V_MAX`); the acceleration-phase formula
`min V_MAX (current_velocity + acceleration * t)` clamps only from above, so
a current velocity below `-V_MAX` yields `|v(0)| > V_MAX`. -/
theorem claim_C3_amended (current current_velocity target acceleration V_MAX t : ℝ)
    (ha : 0 < acceleration) (hv : 0 < V_MAX) (hcv : -V_MAX ≤ current_velocity)
    (ht0 : 0 ≤ t) (ht1 : t ≤ total_time current target acceleration V_MAX) :
    |get_target_velocity current current_velocity target acceleration V_MAX t| ≤ V_MAX :=
  abs_velocity_le current current_velocity target acceleration V_MAX t ha hv hcv ht0

/-- Witness for C3 (amended) at `current = 0, target = 100,
current_velocity = 10, acceleration = 100, V_MAX = 60, t = 0`. -/
theorem claim_C3_witness :
    |get_target_velocity 0 10 100 100 60 0| ≤ 60 :=
  claim_C3_amended 0 10 100 100 60 0 (by norm_num) (by norm_num) (by norm_num) le_rfl
    (total_time_nonneg 0 100 100 60 (by norm_num) (by norm_num))

/-- Counterexample to C3 as stated: at `current = 0, target = 100,
acceleration = 100, V_MAX = 60` (trapezoidal) with measured current velocity
`-1000`, the time `t = 0` lies in `[0, total_time]` yet
`v(0) = min 60 (-1000) = -1000`, whose magnitude exceeds the cap. -/
theorem claim_C3_counterexample :
    (0 : ℝ) < 100 ∧ (0 : ℝ) < 60 ∧ (0 : ℝ) ≤ 0 ∧
    (0 : ℝ) ≤ total_time 0 100 100 60 ∧
    ¬ |get_target_velocity 0 (-1000) 100 100 60 0| ≤ 60 := by
  refine ⟨by norm_num, by norm_num, le_rfl,
    total_time_nonneg 0 100 100 60 (by norm_num) (by norm_num), ?_⟩
  have hd : distance 0 100 = 100 := by
    unfold distance displacement
    rw [show (100 : ℝ) - 0 = 100 by norm_num, abs_of_nonneg (by norm_num : (0 : ℝ) ≤ 100)]
  have h1 : get_target_velocity 0 (-1000) 100 100 60 0 = -1000 := by
    rw [velocity_trap_accel_phase 0 (-1000) 100 100 60 0
      (by rw [hd, two_d_accel 100 60 (by norm_num)]; norm_num)
      (by unfold t_accel; norm_num)]
    rw [direction_of_lt 0 100 (by norm_num), one_mul,
      show (-1000 : ℝ) + 100 * 0 = -1000 by norm_num,
      min_eq_right (by norm_num : (-1000 : ℝ) ≤ 60)]
  rw [h1, abs_of_nonpos (by norm_num : (-1000 : ℝ) ≤ 0)]
  norm_num

/-- C4 (amended): at `t = 0` the velocity law evaluates to
`direction * min peakVelocity currentVelocity`.  Consequently, when the sign
of the measured current velocity matches the direction and
`|current_velocity| ≤ peakVelocity` (the profile's peak: `V_MAX` for a
trapezoidal profile), `v(0)` equals `|current_velocity|` — which is the
supplied current velocity itself for `direction = +1`, but its negation for
`direction = -1`; and when the signs do not match, `|v(0)| ≤ V_MAX` holds
provided additionally `-V_MAX ≤ current_velocity`. -/
theorem claim_C4_amended (current current_velocity target acceleration V_MAX : ℝ)
    (ha : 0 < acceleration) (hv : 0 < V_MAX) (hne : current ≠ target) :
    ((0 < displacement current target → 0 ≤ current_velocity →
        |current_velocity| ≤ profile_peak current target acceleration V_MAX →
        get_target_velocity current current_velocity target acceleration V_MAX 0 =
          |current_velocity|) ∧
      (displacement current target < 0 → current_velocity ≤ 0 →
        |current_velocity| ≤ profile_peak current target acceleration V_MAX →
        get_target_velocity current current_velocity target acceleration V_MAX 0 =
          |current_velocity|)) ∧
    (-V_MAX ≤ current_velocity →
      |get_target_velocity current current_velocity target acceleration V_MAX 0| ≤ V_MAX) := by
  have hz := velocity_at_zero current current_velocity target acceleration V_MAX ha hv hne
  refine ⟨⟨?_, ?_⟩, ?_⟩
  · intro hdisp hcv hcap
    rw [hz, direction_of_lt current target (by unfold displacement at hdisp; linarith),
      one_mul, min_eq_right (le_trans (le_abs_self _) hcap), abs_of_nonneg hcv]
  · intro hdisp hcv hcap
    have hpk : 0 ≤ profile_peak current target acceleration V_MAX :=
      profile_peak_nonneg current target acceleration V_MAX ha.le hv.le
    rw [hz, direction_of_ge current target (by unfold displacement at hdisp; linarith),
      min_eq_right (le_trans hcv hpk), abs_of_nonpos hcv]
    ring
  · intro hcv
    exact abs_velocity_le current current_velocity target acceleration V_MAX 0 ha hv hcv le_rfl

/-- Witness for C4 (amended) at `current = 0, target = 100,
current_velocity = 10, acceleration = 100, V_MAX = 60`. -/
theorem claim_C4_witness :
    ((0 < displacement 0 100 → (0 : ℝ) ≤ 10 →
        |(10 : ℝ)| ≤ profile_peak 0 100 100 60 →
        get_target_velocity 0 10 100 100 60 0 = |(10 : ℝ)|) ∧
      (displacement 0 100 < 0 → (10 : ℝ) ≤ 0 →
        |(10 : ℝ)| ≤ profile_peak 0 100 100 60 →
        get_target_velocity 0 10 100 100 60 0 = |(10 : ℝ)|)) ∧
    (-(60 : ℝ) ≤ 10 → |get_target_velocity 0 10 100 100 60 0| ≤ 60) :=
  claim_C4_amended 0 10 100 100 60 (by norm_num) (by norm_num) (by norm_num)

/-- Counterexample to C4 as stated: at `current = 0, target = -100,
acceleration = 100, V_MAX = 60` (trapezoidal, `direction = -1`) with measured
current velocity `-10` — whose sign matches the direction and whose magnitude
is within the cap — the velocity law gives
`v(0) = -1 * min 60 (-10) = 10 ≠ -10`: `v(0)` is not the supplied current
velocity. -/
theorem claim_C4_counterexample :
    direction 0 (-100) = -1 ∧ (-10 : ℝ) < 0 ∧ |(-10 : ℝ)| ≤ 60 ∧
    get_target_velocity 0 (-10) (-100) 100 60 0 = 10 ∧
    ¬ get_target_velocity 0 (-10) (-100) 100 60 0 = -10 := by
  have hdir : direction 0 (-100) = -1 := direction_of_ge 0 (-100) (by norm_num)
  have hd : distance 0 (-100) = 100 := by
    unfold distance displacement
    rw [show (-100 : ℝ) - 0 = -100 by norm_num,
      abs_of_nonpos (by norm_num : (-100 : ℝ) ≤ 0)]
    norm_num
  have h1 : get_target_velocity 0 (-10) (-100) 100 60 0 = 10 := by
    rw [velocity_trap_accel_phase 0 (-10) (-100) 100 60 0
      (by rw [hd, two_d_accel 100 60 (by norm_num)]; norm_num)
      (by unfold t_accel; norm_num)]
    rw [hdir, show (-10 : ℝ) + 100 * 0 = -10 by norm_num,
      min_eq_right (by norm_num : (-10 : ℝ) ≤ 60)]
    norm_num
  refine ⟨hdir, by norm_num, ?_, h1, by rw [h1]; norm_num⟩
  rw [abs_of_nonpos (by norm_num : (-10 : ℝ) ≤ 0)]
  norm_num

/-- The Euler-integrated position after `k` ticks is the starting position
plus the sum of `v(i * dt) * dt` over `i < k`. -/
theorem eulerPosition_eq_sum
    (current current_velocity target acceleration V_MAX dt : ℝ) (k : ℕ) :
    eulerPosition current current_velocity target acceleration V_MAX dt k =
      current + ∑ i ∈ Finset.range k,
        get_target_velocity current current_velocity target acceleration V_MAX (i * dt) * dt := by
  induction k with
  | zero => simp [eulerPosition]
  | succ n ih =>
    rw [eulerPosition, ih, Finset.sum_range_succ]
    ring

/-- C6: with `dt > 0` the tick loop runs exactly `⌊total_time / dt⌋`
iterations, and the position commanded at the `k`-th tick
(`k = 1 .. stepCount`) is the queried starting position plus
`∑ i < k, v(i * dt) * dt` — explicit Euler integration of the velocity law,
not its closed-form position. -/
theorem claim_C6
    (queried_position queried_velocity target acceleration V_MAX dt : ℝ)
    (actuator_id : ℤ) (ha : 0 < acceleration) (hv : 0 < V_MAX) (hdt : 0 < dt) :
    (tick_commands queried_position queried_velocity target acceleration V_MAX dt
        actuator_id).length = steps queried_position target acceleration V_MAX dt ∧
    (steps queried_position target acceleration V_MAX dt : ℤ) =
      ⌊total_time queried_position target acceleration V_MAX / dt⌋ ∧
    (∀ k : ℕ, 1 ≤ k → k ≤ steps queried_position target acceleration V_MAX dt →
      (tick_commands queried_position queried_velocity target acceleration V_MAX dt
          actuator_id)[k - 1]? =
        some { actuator_id := actuator_id
               position := queried_position + ∑ i ∈ Finset.range k,
                 get_target_velocity queried_position queried_velocity target acceleration
                   V_MAX (i * dt) * dt
               velocity :=
                 |get_target_velocity queried_position queried_velocity target acceleration
                   V_MAX ((k - 1 : ℕ) * dt)| }) := by
  refine ⟨?_, ?_, ?_⟩
  · unfold tick_commands
    rw [List.length_map, List.length_range]
  · unfold steps
    exact Int.toNat_of_nonneg (Int.floor_nonneg.mpr
      (div_nonneg (total_time_nonneg queried_position target acceleration V_MAX ha hv)
        hdt.le))
  · intro k hk1 hk
    have hlt : k - 1 < steps queried_position target acceleration V_MAX dt :=
      lt_of_lt_of_le (Nat.sub_lt (by omega) one_pos) hk
    unfold tick_commands
    simp only [List.getElem?_map, List.getElem?_range hlt, Option.map_some']
    rw [Nat.sub_add_cancel hk1, eulerPosition_eq_sum]

/-- Witness for C6 at `queried_position = 0, queried_velocity = 0,
target = 36, acceleration = 100, V_MAX = 60, dt = 3/5` (trapezoidal with
`total_time = 6/5`, so two ticks). -/
theorem claim_C6_witness :
    (tick_commands 0 0 36 100 60 (3 / 5) 21).length = steps 0 36 100 60 (3 / 5) ∧
    (steps 0 36 100 60 (3 / 5) : ℤ) = ⌊total_time 0 36 100 60 / (3 / 5)⌋ ∧
    (∀ k : ℕ, 1 ≤ k → k ≤ steps 0 36 100 60 (3 / 5) →
      (tick_commands 0 0 36 100 60 (3 / 5) 21)[k - 1]? =
        some { actuator_id := 21
               position := 0 + ∑ i ∈ Finset.range k,
                 get_target_velocity 0 0 36 100 60 (i * (3 / 5)) * (3 / 5)
               velocity := |get_target_velocity 0 0 36 100 60 ((k - 1 : ℕ) * (3 / 5))| }) :=
  claim_C6 0 0 36 100 60 (3 / 5) 21 (by norm_num) (by norm_num) (by norm_num)

/-- C7: every command dispatched by the trajectory executor — tick commands
(which send `abs(target_velocity)`), the final snap (velocity `0`) and the
instantaneous hand commands (velocity `0`) — carries a non-negative velocity
field. -/
theorem claim_C7 :
    (∀ (queried_position queried_velocity current_angle target acceleration V_MAX dt : ℝ)
        (actuator_id : ℤ) (c : ActuatorCommand),
        c ∈ (move_to_target queried_position queried_velocity current_angle target
          acceleration V_MAX dt actuator_id).commands → 0 ≤ c.velocity) ∧
    (∀ (hand_ids : List ℤ) (position : ℤ) (l : List ActuatorCommand),
        move_hands_commands hand_ids position = .ok l → ∀ c ∈ l, c.velocity = 0) := by
  constructor
  · intro qp qv ca target acceleration V_MAX dt actuator_id c hc
    unfold move_to_target at hc
    rcases List.mem_append.mp hc with h | h
    · unfold tick_commands at h
      obtain ⟨i, _, rfl⟩ := List.mem_map.mp h
      exact abs_nonneg _
    · rw [List.mem_singleton.mp h]
  · intro hand_ids position l h c hc
    unfold move_hands_commands at h
    split_ifs at h with hp hq
    · obtain rfl : _ = l := Except.ok.inj h
      obtain ⟨i, _, rfl⟩ := List.mem_map.mp hc
      rfl
    · obtain rfl : _ = l := Except.ok.inj h
      obtain ⟨i, _, rfl⟩ := List.mem_map.mp hc
      rfl

/-- C8 (amended): the per-actuator `try/except` loop of disable.py (and
sin_test.py) configures every actuator whose own configure call does not
fail, regardless of other failures; the configuration loop of
`boxing_stance`, having no exception handling, stops at the first failure and
leaves the remaining (non-failing) actuators unconfigured. -/
theorem claim_C8_amended :
    (∀ (fails : ℤ → Bool) (ids : List ℤ) (id : ℤ),
        id ∈ ids → fails id = false → id ∈ configure_loop_disable fails ids) ∧
    (∃ (fails : ℤ → Bool) (ids : List ℤ) (id : ℤ),
        id ∈ ids ∧ fails id = false ∧ id ∉ (configure_loop_boxing fails ids).1) := by
  constructor
  · intro fails ids
    induction ids with
    | nil =>
      intro id hid _
      simp at hid
    | cons a rest ih =>
      intro id hid hf
      rcases List.mem_cons.mp hid with rfl | hmem
      · unfold configure_loop_disable
        rw [if_neg (by simp [hf])]
        exact List.mem_cons_self _ _
      · unfold configure_loop_disable
        split_ifs
        · exact ih id hmem hf
        · exact List.mem_cons_of_mem _ (ih id hmem hf)
  · exact ⟨fun i => decide (i = 22), [21, 22, 23], 23, by decide, by decide, by decide⟩

/-- Counterexample to C8 as stated: in the `boxing_stance` configuration loop
(no `try/except`), when configuring actuator 22 fails, actuator 23 — whose
own configuration would succeed — is never configured, and the exception
escapes the loop. -/
theorem claim_C8_counterexample :
    (23 : ℤ) ∈ ([21, 22, 23] : List ℤ) ∧
    (fun i : ℤ => decide (i = 22)) 23 = false ∧
    (23 : ℤ) ∉ (configure_loop_boxing (fun i : ℤ => decide (i = 22)) [21, 22, 23]).1 ∧
    (configure_loop_boxing (fun i : ℤ => decide (i = 22)) [21, 22, 23]).2 = true := by
  decide

/-- C9 (amended): sin_test.py's interrupt handler disables torque on every
leg motor its test configured; boxing.py, by contrast, has no cancellation
handler at all (see the counterexample), so the guarantee does not hold for
every composite move of the repository. -/
theorem claim_C9_amended (id : ℤ) (h : id ∈ leg_motor_ids) :
    id ∈ sin_test_cancellation_disables :=
  h

/-- Witness for C9 (amended) at leg motor 31. -/
theorem claim_C9_witness : (31 : ℤ) ∈ sin_test_cancellation_disables :=
  claim_C9_amended 31 (by decide)

/-- Counterexample to C9 as stated: actuator 21 is configured
(torque-enabled) by `boxing_stance`, but boxing.py contains no cancellation
cleanup path, so no actuator at all is torque-disabled when the move is
aborted: the system can terminate an aborted move leaving actuator 21
torque-enabled. -/
theorem claim_C9_counterexample :
    (21 : ℤ) ∈ boxing_configured_ids ∧ (21 : ℤ) ∉ boxing_cancellation_disables := by
  decide

/-- C10: two invocations of `move_to_target` that differ only in the
caller-supplied `current_angle` argument but receive the same state-query
response dispatch identical command sequences and return the same value: the
argument is overwritten by the queried position before any use. -/
theorem claim_C10
    (queried_position queried_velocity stale_a stale_b target acceleration V_MAX dt : ℝ)
    (actuator_id : ℤ) :
    move_to_target queried_position queried_velocity stale_a target acceleration V_MAX dt
        actuator_id =
      move_to_target queried_position queried_velocity stale_b target acceleration V_MAX dt
        actuator_id :=
  rfl

end KBot
